import Mathlib

/-!
# Verification of the homeserver-vitals metric collection and streaming backend

Shallow embedding of `cmd/api/sse.go`, `cmd/api/health.go` and `cmd/api/main.go`
from the `homeserver-vitals` repository, together with proofs about the
embedded definitions.

Modelling conventions:
* Go `float64` values (CPU percentages, load averages, temperatures) are
  modelled as `ℚ`; the program only stores, compares and copies them, so the
  exact-arithmetic model is faithful for every property proved here.
* Go `uint64` counters are modelled as `ℕ`; wherever the program adds two
  counters the result is reduced `% 2^64`, mirroring Go's wraparound.
* Each `gopsutil` probe or OS interaction is a field of a `ProbeEnv` record:
  a fallible probe is an `Except Unit α`, mirroring Go's `(value, err)`
  convention.  Only the struct fields the program actually reads are modelled.
* `time.Now()` / `host.Uptime()` timestamps are modelled as `ℕ`.
-/

namespace HomeserverVitals

/-- Result of a fallible Go call `(value, err)`. -/
abbrev GoResult (α : Type) : Type := Except Unit α

/-! ## Data model: the structs of `sse.go` (lines 22–82) and the gopsutil
structs whose fields the program reads. -/

/-- `mem.VirtualMemoryStat`, restricted to the fields the program reads
(`Total`, `Used`, `UsedPercent`). -/
structure VirtualMemoryStat where
  total : Nat
  used : Nat
  usedPercent : ℚ
  deriving Repr, DecidableEq

/-- `mem.SwapMemoryStat`, restricted to the fields the program touches. -/
structure SwapMemoryStat where
  total : Nat
  used : Nat
  usedPercent : ℚ
  deriving Repr, DecidableEq

/-- `disk.PartitionStat`, restricted to the fields the program reads. -/
structure PartitionStat where
  mountpoint : String
  fstype : String
  deriving Repr, DecidableEq

/-- `disk.UsageStat`, restricted to the fields the program reads. -/
structure UsageStat where
  total : Nat
  used : Nat
  free : Nat
  usedPercent : ℚ
  deriving Repr, DecidableEq

/-- `disk.IOCountersStat` as stored in the `DiskIO` map (opaque payload:
the program never reads its fields, only marshals them). -/
structure DiskIOCountersStat where
  readBytes : Nat
  writeBytes : Nat
  deriving Repr, DecidableEq

/-- `net.IOCountersStat`, restricted to the fields the program touches
(`Name` on the per-interface entries, `BytesSent`/`BytesRecv`). -/
structure IOCountersStat where
  name : String
  bytesSent : Nat
  bytesRecv : Nat
  deriving Repr, DecidableEq

/-- `net.InterfaceStat`, restricted to the fields the program reads:
`Name`, `HardwareAddr`, and the `Addr` strings of `Addrs`. -/
structure InterfaceStat where
  name : String
  hardwareAddr : String
  addrs : List String
  deriving Repr, DecidableEq

/-- `host.InfoStat`, restricted to the fields the program reads. -/
structure HostInfoStat where
  hostname : String
  platform : String
  platformVersion : String
  deriving Repr, DecidableEq

/-- `load.AvgStat`. -/
structure AvgStat where
  load1 : ℚ
  load5 : ℚ
  load15 : ℚ
  deriving Repr, DecidableEq

/-- `host.TemperatureStat`, restricted to the fields the program reads. -/
structure TemperatureStat where
  sensorKey : String
  temperature : ℚ
  deriving Repr, DecidableEq

/-- `cpu.InfoStat`, restricted to the field the program reads. -/
structure CPUInfoStat where
  modelName : String
  deriving Repr, DecidableEq

/-- One entry of `process.Processes()` together with the values returned by
the per-process queries the program performs with the error ignored
(`p.CPUPercent()`, `p.MemoryPercent()`, `p.Name()`, `p.Cmdline()`); a failing
per-process query returns its zero value, which the environment supplies
directly. -/
structure ProcEntry where
  pid : Int
  cpu : ℚ
  mem : ℚ
  name : String
  cmdline : String
  deriving Repr, DecidableEq

/-- `DiskInfo` (sse.go lines 23–30). -/
structure DiskInfo where
  mountPoint : String
  fileSystem : String
  total : Nat
  used : Nat
  free : Nat
  usedPercent : ℚ
  deriving Repr, DecidableEq

/-- `NetworkInterface` (sse.go lines 33–40). -/
structure NetworkInterface where
  name : String
  ipAddress : String
  macAddr : String
  bytesSent : Nat
  bytesRecv : Nat
  isUp : Bool
  deriving Repr, DecidableEq

/-- `TopProcess` (sse.go lines 43–49). -/
structure TopProcess where
  pid : Int
  name : String
  cpu : ℚ
  memory : ℚ
  command : String
  deriving Repr, DecidableEq

/-- `HardwareInfo` (sse.go lines 52–59). -/
structure HardwareInfo where
  cpuModel : String
  cpuCores : Nat
  cpuThreads : Nat
  totalMemory : Nat
  systemVendor : String
  systemModel : String
  deriving Repr, DecidableEq

/-- `SystemVitals` (sse.go lines 62–82).  Go `nil` slices, `nil` pointers and
the `nil` map are modelled as `none`; a populated slice/pointer/map field is
`some …` (in Go both a nil slice and a nil pointer serialize to JSON `null`,
while a non-nil empty slice serializes to `[]`). -/
structure SystemVitals where
  cpuUsage : ℚ
  cpuPerCore : Option (List ℚ)
  memory : Option VirtualMemoryStat
  swap : Option SwapMemoryStat
  disks : Option (List DiskInfo)
  network : IOCountersStat
  networkIfaces : Option (List NetworkInterface)
  hostInfo : Option HostInfoStat
  uptime : Nat
  loadAvg : Option AvgStat
  processes : Nat
  temperature : Option (List TemperatureStat)
  goRoutines : Nat
  goMemAlloc : Nat
  topProcesses : Option (List TopProcess)
  hardware : HardwareInfo
  lastUpdated : Nat
  systemUpdates : Int
  -- the Go field `DiskIO map[string]disk.IOCountersStat` (json key "diskIO"),
  -- modelled as an association list
  diskIOCounters : Option (List (String × DiskIOCountersStat))
  deriving Repr, DecidableEq

/-- Zero value of `TopProcess`, used only as the default of `List.getD`
at indices the loops keep in bounds. -/
def topProcessZero : TopProcess := ⟨0, "", 0, 0, ""⟩

/-! ## The top-processes pipeline (sse.go lines 276–317)

The Go code filters the process table to entries with strictly positive CPU,
sorts the resulting slice in place with a nested-loop exchange sort, and
truncates to the first 5 entries. -/

/-- One comparison-and-conditional-swap step of the in-place sort
(sse.go lines 306–308): `if a[i].CPU < a[j].CPU { swap a[i], a[j] }`. -/
def exchStep (l : List TopProcess) (i j : Nat) : List TopProcess :=
  if (l.getD i topProcessZero).cpu < (l.getD j topProcessZero).cpu then
    (l.set i (l.getD j topProcessZero)).set j (l.getD i topProcessZero)
  else l

@[simp] theorem exchStep_length (l : List TopProcess) (i j : Nat) :
    (exchStep l i j).length = l.length := by
  unfold exchStep; split <;> simp

/-- Inner loop of the in-place sort (sse.go lines 305–309):
`for j := i+1; j < len; j++ { if a[i].CPU < a[j].CPU { swap a[i], a[j] } }`. -/
def exchInner (l : List TopProcess) (i j : Nat) : List TopProcess :=
  if _h : j < l.length then
    exchInner (exchStep l i j) i (j + 1)
  else l
termination_by l.length - j
decreasing_by simp only [exchStep_length]; omega

theorem exchInner_length (l : List TopProcess) (i j : Nat) :
    (exchInner l i j).length = l.length := by
  rw [exchInner]
  split
  · rw [exchInner_length]; simp
  · rfl
termination_by l.length - j
decreasing_by simp only [exchStep_length]; omega

/-- Outer loop of the in-place sort (sse.go lines 304–310):
`for i := 0; i < len-1; i++ { inner loop }`. -/
def exchOuter (l : List TopProcess) (i : Nat) : List TopProcess :=
  if _h : i + 1 < l.length then exchOuter (exchInner l i (i + 1)) (i + 1) else l
termination_by l.length - i
decreasing_by simp only [exchInner_length]; omega

/-- The full sort as performed on the filtered slice. -/
def sortTopProcesses (l : List TopProcess) : List TopProcess := exchOuter l 0

/-- The complete top-processes pipeline (sse.go lines 282–317): keep only
processes with strictly positive CPU (in enumeration order), exchange-sort
descending by CPU, and truncate to 5 entries when longer. -/
def topProcessesOf (ps : List ProcEntry) : List TopProcess :=
  let candidates := ps.filterMap fun p =>
    if 0 < p.cpu then some ⟨p.pid, p.name, p.cpu, p.mem, p.cmdline⟩ else none
  let sorted := sortTopProcesses candidates
  if sorted.length > 5 then sorted.take 5 else sorted

/-! ## String helpers (sse.go lines 404–419)

`getCommandOutput` runs a shell command and trims its output;
`parseCommandInt` mirrors `fmt.Sscanf(output, "%d", &value)`. -/

/-- Whitespace predicate used by the `strings.TrimSpace` model (the strings
the program feeds it only ever contain these whitespace characters). -/
def isSpaceChar (c : Char) : Bool :=
  c == ' ' || c == '\t' || c == '\n' || c == '\r'

/-- Model of `strings.TrimSpace`. -/
def trimSpace (s : String) : String :=
  (((s.toList.dropWhile isSpaceChar).reverse.dropWhile isSpaceChar).reverse).asString

/-- `getCommandOutput` (sse.go lines 404–411): run `sh -c cmd` through the
environment's shell; on execution failure return `""`, otherwise the trimmed
output.  `shell cmd = none` models `cmd.Output()` returning an error. -/
def getCommandOutput (shell : String → Option String) (cmd : String) : String :=
  match shell cmd with
  | none => ""
  | some out => trimSpace out

/-- Decimal value of a digit run. -/
def digitsVal (l : List Char) : Nat :=
  l.foldl (fun n c => n * 10 + (c.toNat - '0'.toNat)) 0

/-- `parseCommandInt` (sse.go lines 414–419): `fmt.Sscanf(s, "%d")` on the
trimmed string — reads an optional sign followed by at least one digit,
failing when no digit is present. -/
def parseCommandInt (output : String) : GoResult Int :=
  match (trimSpace output).toList with
  | '-' :: rest =>
      if (rest.takeWhile Char.isDigit).isEmpty then .error ()
      else .ok (-(Int.ofNat (digitsVal (rest.takeWhile Char.isDigit))))
  | l =>
      if (l.takeWhile Char.isDigit).isEmpty then .error ()
      else .ok (Int.ofNat (digitsVal (l.takeWhile Char.isDigit)))

/-! ## The probe environment

One record per `collectSystemVitals` invocation describing what every OS
query returns during that invocation. -/

/-- The operating-system environment a single snapshot assembly runs
against.  Fallible gopsutil calls are `GoResult`s; `shell` is
`exec.Command("sh", "-c", ·).Output()`. -/
structure ProbeEnv where
  /-- `cpu.Percent(interval seconds, percpu)` -/
  cpuPercent : Nat → Bool → GoResult (List ℚ)
  /-- `mem.VirtualMemory()` -/
  virtualMemory : GoResult VirtualMemoryStat
  /-- `mem.SwapMemory()` -/
  swapMemory : GoResult SwapMemoryStat
  /-- `disk.Partitions(false)` -/
  partitions : GoResult (List PartitionStat)
  /-- `disk.Usage(mountpoint)` -/
  diskUsage : String → GoResult UsageStat
  /-- `disk.IOCounters()` (a Go map, modelled as an association list) -/
  diskCounters : GoResult (List (String × DiskIOCountersStat))
  /-- `net.IOCounters(true)` (per-interface entries) -/
  netCounters : GoResult (List IOCountersStat)
  /-- `net.Interfaces()` -/
  interfaces : GoResult (List InterfaceStat)
  /-- `host.Info()` -/
  hostInformation : GoResult HostInfoStat
  /-- `host.Uptime()` -/
  uptime : GoResult Nat
  /-- `load.Avg()` -/
  loadAvg : GoResult AvgStat
  /-- `process.Processes()` plus the per-process queries -/
  processes : GoResult (List ProcEntry)
  /-- `host.SensorsTemperatures()` -/
  sensorsTemperatures : GoResult (List TemperatureStat)
  /-- `cpu.Info()` -/
  cpuInformation : GoResult (List CPUInfoStat)
  /-- `cpu.Counts(logical)` -/
  cpuCounts : Bool → GoResult Nat
  /-- `exec.Command("sh", "-c", cmd).Output()`; `none` = execution error -/
  shell : String → Option String
  /-- `runtime.GOOS` -/
  goos : String
  /-- `runtime.NumGoroutine()` -/
  numGoroutine : Nat
  /-- `runtime.ReadMemStats`: `memStats.Alloc` -/
  memStatsAlloc : Nat
  /-- `time.Now()` -/
  now : Nat

/-- `ifaces, _ := net.Interfaces()` (sse.go line 217): the error is ignored,
so a failing call leaves `ifaces` nil. -/
def ifacesOf (env : ProbeEnv) : List InterfaceStat :=
  match env.interfaces with
  | .ok l => l
  | .error _ => []

/-! ## The network block (sse.go lines 210–249) -/

/-- Modulus of Go `uint64` arithmetic. -/
def uint64Mod : Nat := 2 ^ 64

/-- Construction of one `NetworkInterface` record for a counter entry whose
name matched interface `iface` (sse.go lines 227–241), including the second
scan over `ifaces` that fills in the IP address from the first entry with the
same name and a non-empty address list. -/
def mkNetworkInterface (entry : IOCountersStat) (iface : InterfaceStat)
    (ifaces : List InterfaceStat) : NetworkInterface :=
  { name := entry.name
    macAddr := iface.hardwareAddr
    bytesSent := entry.bytesSent
    bytesRecv := entry.bytesRecv
    isUp := true  -- `IsUp: true, // Simplified` (sse.go line 232)
    ipAddress :=
      match ifaces.find? (fun a => a.name == iface.name && !a.addrs.isEmpty) with
      | some a => a.addrs.headD ""
      | none => "" }

/-- One iteration of the network aggregation loop (sse.go lines 220–247):
add the entry's counters to the running totals (wrapping `uint64`
additions); the inner loop over `ifaces` with `break` is a first-match
search, and only a matched entry appends a record. -/
def netStep (ifaces : List InterfaceStat)
    (acc : IOCountersStat × List NetworkInterface) (entry : IOCountersStat) :
    IOCountersStat × List NetworkInterface :=
  let total : IOCountersStat :=
    { acc.1 with
      bytesSent := (acc.1.bytesSent + entry.bytesSent) % uint64Mod
      bytesRecv := (acc.1.bytesRecv + entry.bytesRecv) % uint64Mod }
  match ifaces.find? (fun iface => iface.name == entry.name) with
  | some iface => (total, acc.2 ++ [mkNetworkInterface entry iface ifaces])
  | none => (total, acc.2)

/-- The network aggregation loop (sse.go lines 214–248): fold over the
per-interface counter entries starting from the zero `total` and the empty
record slice. -/
def collectNetwork (entries : List IOCountersStat) (ifaces : List InterfaceStat) :
    IOCountersStat × List NetworkInterface :=
  entries.foldl (netStep ifaces) (⟨"", 0, 0⟩, [])

/-! ## Hardware info and update count (sse.go lines 340–401) -/

/-- Shell command for the system vendor (sse.go line 367). -/
def sysVendorCmd : String :=
  "cat /sys/devices/virtual/dmi/id/sys_vendor 2>/dev/null || echo \x27Unknown\x27"

/-- Shell command for the system model (sse.go line 368). -/
def productNameCmd : String :=
  "cat /sys/devices/virtual/dmi/id/product_name 2>/dev/null || echo \x27Unknown\x27"

/-- `collectHardwareInfo` (sse.go lines 340–371). -/
def collectHardwareInfo (env : ProbeEnv) : HardwareInfo :=
  { cpuModel :=
      match env.cpuInformation with
      | .ok l => if 0 < l.length then (l.headD ⟨""⟩).modelName else ""
      | .error _ => ""
    cpuThreads := match env.cpuCounts true with | .ok n => n | .error _ => 0
    cpuCores := match env.cpuCounts false with | .ok n => n | .error _ => 0
    totalMemory := match env.virtualMemory with | .ok m => m.total | .error _ => 0
    systemVendor := getCommandOutput env.shell sysVendorCmd
    systemModel := getCommandOutput env.shell productNameCmd }

/-- apt update-count command (sse.go line 380). -/
def aptCmd : String :=
  "apt list --upgradable 2>/dev/null | grep -v \x27Listing...\x27 | wc -l"

/-- yum update-count command (sse.go line 387). -/
def yumCmd : String :=
  "yum check-update --quiet | grep -v \x27^$\x27 | wc -l"

/-- macOS update-count command (sse.go line 394). -/
def macCmd : String :=
  "softwareupdate -l 2>/dev/null | grep -i \x27recommended\x27 | wc -l"

/-- `checkForUpdates` (sse.go lines 374–401). -/
def checkForUpdates (env : ProbeEnv) : Int :=
  if env.goos = "linux" then
    let updates : Int :=
      match parseCommandInt (getCommandOutput env.shell aptCmd) with
      | .ok n => if 0 < n then n else 0
      | .error _ => 0
    if updates = 0 then
      match parseCommandInt (getCommandOutput env.shell yumCmd) with
      | .ok n => n
      | .error _ => 0
    else updates
  else if env.goos = "darwin" then
    match parseCommandInt (getCommandOutput env.shell macCmd) with
    | .ok n => n
    | .error _ => 0
  else 0

/-! ## The Snapshot Assembler: `collectSystemVitals` (sse.go lines 143–337)

The source sets each field of `vitals` from exactly one probe block, and no
block reads a field written by another block, so the sequential Go function
is embedded as a record whose every field carries its block's translation.
The second component records the `(interval, percpu)` argument pair of each
`cpu.Percent` call the invocation performs, in program order
(`time.Second` = 1 second): this is the blocking CPU-sampling trace. -/
def collectSystemVitalsT (env : ProbeEnv) : SystemVitals × List (Nat × Bool) :=
  ({ -- vitals := &SystemVitals{LastUpdated: time.Now()} (line 145)
     lastUpdated := env.now
     -- cpuPercents, err := cpu.Percent(time.Second, false) (lines 149–154)
     cpuUsage :=
       match env.cpuPercent 1 false with
       | .ok l => if 0 < l.length then l.headD 0 else 0
       | .error _ => 0
     -- perCore, err := cpu.Percent(time.Second, true) (lines 157–162)
     cpuPerCore :=
       match env.cpuPercent 1 true with
       | .ok l => some l
       | .error _ => none
     -- mem.VirtualMemory() (lines 165–169)
     memory := match env.virtualMemory with | .ok m => some m | .error _ => none
     -- mem.SwapMemory() (lines 172–176)
     swap := match env.swapMemory with | .ok s => some s | .error _ => none
     -- disk.Partitions(false); per-partition disk.Usage, errors skipped
     -- via continue (lines 179–200)
     disks :=
       match env.partitions with
       | .ok parts => some (parts.filterMap fun part =>
           match env.diskUsage part.mountpoint with
           | .ok u => some ⟨part.mountpoint, part.fstype, u.total, u.used,
               u.free, u.usedPercent⟩
           | .error _ => none)
       | .error _ => none
     -- disk.IOCounters() (lines 203–208)
     diskIOCounters :=
       match env.diskCounters with | .ok m => some m | .error _ => none
     -- net.IOCounters(true) and the aggregation loop (lines 210–249)
     network :=
       match env.netCounters with
       | .ok entries => (collectNetwork entries (ifacesOf env)).1
       | .error _ => ⟨"", 0, 0⟩
     networkIfaces :=
       match env.netCounters with
       | .ok entries => some (collectNetwork entries (ifacesOf env)).2
       | .error _ => none
     -- host.Info() (lines 252–256)
     hostInfo := match env.hostInformation with | .ok h => some h | .error _ => none
     -- collectHardwareInfo() (line 259)
     hardware := collectHardwareInfo env
     -- host.Uptime() (lines 262–266)
     uptime := match env.uptime with | .ok u => u | .error _ => 0
     -- load.Avg() (lines 269–273)
     loadAvg := match env.loadAvg with | .ok a => some a | .error _ => none
     -- process.Processes() and the top-processes block (lines 276–318)
     processes := match env.processes with | .ok ps => ps.length | .error _ => 0
     topProcesses :=
       match env.processes with
       | .ok ps => some (topProcessesOf ps)
       | .error _ => none
     -- host.SensorsTemperatures() (lines 321–325)
     temperature :=
       match env.sensorsTemperatures with | .ok t => some t | .error _ => none
     -- checkForUpdates() (line 328)
     systemUpdates := checkForUpdates env
     -- runtime metrics (lines 331–334)
     goRoutines := env.numGoroutine
     goMemAlloc := env.memStatsAlloc },
   [(1, false), (1, true)])

/-- `collectSystemVitals` — the assembled snapshot. -/
def collectSystemVitals (env : ProbeEnv) : SystemVitals :=
  (collectSystemVitalsT env).1

/-- Seconds of blocking CPU sampling one assembly performs: the sum of the
interval arguments of its `cpu.Percent` calls. -/
def cpuSamplingSeconds (env : ProbeEnv) : Nat :=
  (((collectSystemVitalsT env).2).map Prod.fst).sum

/-! ## Serialization: `json.Marshal(vitals)` (sse.go line 126)

A JSON value model and the marshalling of `SystemVitals` following Go's
`encoding/json` rules for the struct tags of sse.go lines 22–82: no field
carries `omitempty`, so every key is always emitted; a nil pointer, nil
slice or nil map serializes to `null`.  Field names inside the gopsutil
sub-records are abbreviated to the fields the model carries — the claims
only concern the top-level key set.  `time.Time` and numeric values are
rendered as JSON numbers in the model. -/

/-- JSON values. -/
inductive Json where
  | null
  | bool (b : Bool)
  | num (q : ℚ)
  | str (s : String)
  | arr (items : List Json)
  | obj (fields : List (String × Json))

/-- Top-level key list of a JSON object. -/
def jsonKeys : Json → List String
  | .obj fields => fields.map Prod.fst
  | _ => []

/-- Value of a top-level key in a JSON object. -/
def jsonLookup (k : String) : Json → Option Json
  | .obj fields => (fields.find? (fun f => f.1 == k)).map Prod.snd
  | _ => none

/-- Marshal an optional (pointer/slice/map) field: Go emits `null` for nil. -/
def optJson (f : α → Json) : Option α → Json
  | some a => f a
  | none => .null

/-- Marshalling of `*mem.VirtualMemoryStat`. -/
def marshalVirtualMemory (m : VirtualMemoryStat) : Json :=
  .obj [("total", .num m.total), ("used", .num m.used),
        ("usedPercent", .num m.usedPercent)]

/-- Marshalling of `*mem.SwapMemoryStat`. -/
def marshalSwap (s : SwapMemoryStat) : Json :=
  .obj [("total", .num s.total), ("used", .num s.used),
        ("usedPercent", .num s.usedPercent)]

/-- Marshalling of `DiskInfo`. -/
def marshalDiskInfo (d : DiskInfo) : Json :=
  .obj [("mountPoint", .str d.mountPoint), ("fileSystem", .str d.fileSystem),
        ("total", .num d.total), ("used", .num d.used), ("free", .num d.free),
        ("usedPercent", .num d.usedPercent)]

/-- Marshalling of `net.IOCountersStat`. -/
def marshalIOCounters (x : IOCountersStat) : Json :=
  .obj [("name", .str x.name), ("bytesSent", .num x.bytesSent),
        ("bytesRecv", .num x.bytesRecv)]

/-- Marshalling of `NetworkInterface`. -/
def marshalNetworkInterface (n : NetworkInterface) : Json :=
  .obj [("name", .str n.name), ("ipAddress", .str n.ipAddress),
        ("macAddr", .str n.macAddr), ("bytesSent", .num n.bytesSent),
        ("bytesRecv", .num n.bytesRecv), ("isUp", .bool n.isUp)]

/-- Marshalling of `*host.InfoStat`. -/
def marshalHostInfo (h : HostInfoStat) : Json :=
  .obj [("hostname", .str h.hostname), ("platform", .str h.platform),
        ("platformVersion", .str h.platformVersion)]

/-- Marshalling of `*load.AvgStat`. -/
def marshalLoadAvg (a : AvgStat) : Json :=
  .obj [("load1", .num a.load1), ("load5", .num a.load5),
        ("load15", .num a.load15)]

/-- Marshalling of `host.TemperatureStat`. -/
def marshalTemperature (t : TemperatureStat) : Json :=
  .obj [("sensorKey", .str t.sensorKey), ("temperature", .num t.temperature)]

/-- Marshalling of `TopProcess`. -/
def marshalTopProcess (p : TopProcess) : Json :=
  .obj [("pid", .num p.pid), ("name", .str p.name), ("cpu", .num p.cpu),
        ("memory", .num p.memory), ("command", .str p.command)]

/-- Marshalling of `HardwareInfo`. -/
def marshalHardware (h : HardwareInfo) : Json :=
  .obj [("cpuModel", .str h.cpuModel), ("cpuCores", .num h.cpuCores),
        ("cpuThreads", .num h.cpuThreads), ("totalMemory", .num h.totalMemory),
        ("systemVendor", .str h.systemVendor),
        ("systemModel", .str h.systemModel)]

/-- Marshalling of the `map[string]disk.IOCountersStat`. -/
def marshalDiskCounters (m : List (String × DiskIOCountersStat)) : Json :=
  .obj (m.map fun kv => (kv.1,
    Json.obj [("readBytes", .num kv.2.readBytes),
              ("writeBytes", .num kv.2.writeBytes)]))

/-- `json.Marshal` of a `SystemVitals` value: one key per struct field, in
declaration order, using the json tags of sse.go lines 63–81. -/
def marshalVitals (v : SystemVitals) : Json :=
  .obj [
    ("cpuUsage", .num v.cpuUsage),
    ("cpuPerCore", optJson (fun l => .arr (l.map Json.num)) v.cpuPerCore),
    ("memory", optJson marshalVirtualMemory v.memory),
    ("swap", optJson marshalSwap v.swap),
    ("disks", optJson (fun l => .arr (l.map marshalDiskInfo)) v.disks),
    ("network", marshalIOCounters v.network),
    ("networkIfaces",
      optJson (fun l => .arr (l.map marshalNetworkInterface)) v.networkIfaces),
    ("hostInfo", optJson marshalHostInfo v.hostInfo),
    ("uptime", .num v.uptime),
    ("loadAvg", optJson marshalLoadAvg v.loadAvg),
    ("processes", .num v.processes),
    ("temperature",
      optJson (fun l => .arr (l.map marshalTemperature)) v.temperature),
    ("goRoutines", .num v.goRoutines),
    ("goMemAlloc", .num v.goMemAlloc),
    ("topProcesses",
      optJson (fun l => .arr (l.map marshalTopProcess)) v.topProcesses),
    ("hardware", marshalHardware v.hardware),
    ("lastUpdated", .num v.lastUpdated),
    ("systemUpdates", .num v.systemUpdates),
    ("diskIO", optJson marshalDiskCounters v.diskIOCounters)]

/-- The fixed top-level key set of the serialized snapshot, in the struct's
declaration order. -/
def vitalsKeys : List String :=
  ["cpuUsage", "cpuPerCore", "memory", "swap", "disks", "network",
   "networkIfaces", "hostInfo", "uptime", "loadAvg", "processes",
   "temperature", "goRoutines", "goMemAlloc", "topProcesses", "hardware",
   "lastUpdated", "systemUpdates", "diskIO"]

/-! ## The streaming endpoint (sse.go lines 84–141)

Each `GET /sse` connection runs its own handler goroutine with its own
5-second `time.Ticker` and calls `collectSystemVitals` itself on every tick —
there is no shared broadcaster state between connections.  Snapshot
invocations are identified by a global counter (`SSEWorld.nextId`): each
`collectSystemVitals` call consumes one fresh identity, which is how the
model expresses "the same / a different Assembler invocation". -/

/-- Global world of the running server: the probe environment and the
identity of the next Assembler invocation. -/
structure SSEWorld where
  env : ProbeEnv
  nextId : Nat

/-- One `collectSystemVitals()` call together with its invocation identity. -/
def collectWithId (s : SSEWorld) : (Nat × SystemVitals) × SSEWorld :=
  ((s.nextId, collectSystemVitals s.env), ⟨s.env, s.nextId + 1⟩)

/-- One record written to a subscriber: the serialized snapshot of one
identified Assembler invocation, framed as a `data: <json>\n\n` SSE record. -/
structure Delivery where
  snapId : Nat
  payload : Json

/-- `sendVitalsData` (sse.go lines 123–141): collect a snapshot, marshal it
and write one `data:` frame (the marshalling of the modelled record never
fails; a transport write error is logged without deregistering the
subscriber, so the frame still counts as the tick's one delivery attempt). -/
def sendVitalsData (s : SSEWorld) : Delivery × SSEWorld :=
  let ((ident, v), s') := collectWithId s
  (⟨ident, marshalVitals v⟩, s')

/-- What a connection's select loop can observe: a ticker firing, or the
client-disconnect signal (`r.Context().Done()`). -/
inductive SSEEvent where
  | tick
  | disconnect
  deriving DecidableEq, Repr

/-- `time.NewTicker(5 * time.Second)` (sse.go line 106). -/
def tickerIntervalSeconds : Nat := 5

/-- The select loop of `initiateSSE` (sse.go lines 113–120): on `notify`
return; on a tick, send one snapshot and continue. -/
def runSSELoop (events : List SSEEvent) (s : SSEWorld) :
    List Delivery × SSEWorld :=
  match events with
  | [] => ([], s)
  | .disconnect :: _ => ([], s)
  | .tick :: rest =>
      let (d, s1) := sendVitalsData s
      let (ds, s2) := runSSELoop rest s1
      (d :: ds, s2)

/-- `initiateSSE` (sse.go lines 84–121): reject with a 500 when the
transport cannot stream; otherwise send one snapshot immediately, then run
the select loop over the connection's event sequence. -/
def initiateSSE (flusherOk : Bool) (events : List SSEEvent) (s : SSEWorld) :
    Except Unit (List Delivery) × SSEWorld :=
  if flusherOk then
    let (d0, s1) := sendVitalsData s
    let (ds, s2) := runSSELoop events s1
    (.ok (d0 :: ds), s2)
  else
    (.error (), s)

/-- One 5-second boundary at which the tickers of two concurrently connected
subscribers both fire: each connection's own loop calls `sendVitalsData`,
i.e. each performs its own `collectSystemVitals` invocation (the two calls
are independent regardless of how the goroutines interleave). -/
def twoSubscriberTick (s : SSEWorld) : Delivery × Delivery × SSEWorld :=
  let (d1, s1) := sendVitalsData s
  let (d2, s2) := sendVitalsData s1
  (d1, d2, s2)

/-! ## The one-shot endpoint `GET /vitals` (main.go `serve`, sse.go
`printVitals` lines 421–493)

`printVitals` collects one snapshot and renders a partial textual summary
with `fmt.Println`/`fmt.Printf` — which write to the server process's
standard output, not to the `http.ResponseWriter` `w` (never written). -/

/-- One line printed to the server's standard output, abstracting the format
strings to the data they render. -/
inductive OutLine where
  | text (s : String)
  | cpuLine (usage : ℚ)
  | memTotals (total used : Nat)
  | usagePct (pct : ℚ)
  | diskLine (mount : String) (total used : Nat)
  | netLine (sent recv : Nat)
  | hostLine (hostname : String)
  | platformLine (platform version : String)
  | uptimeLine (seconds : Nat)
  | loadLine (l1 l5 l15 : ℚ)
  | processesLine (n : Nat)
  | tempLine (key : String) (celsius : ℚ)
  | goroutinesLine (n : Nat)
  | gomemLine (n : Nat)

/-- The stdout rendering of `printVitals` (sse.go lines 424–492), block by
block with the source's nil-guards. -/
def renderVitals (v : SystemVitals) : List OutLine :=
  [OutLine.text "box-top", .text "SYSTEM VITALS", .text "box-sep",
   .cpuLine v.cpuUsage, .text "sep"]
  ++ (match v.memory with
      | some m => [OutLine.text "MEMORY", .memTotals m.total m.used,
                   .usagePct m.usedPercent, .text "sep"]
      | none => [])
  ++ (match v.disks with
      | some ds =>
          [OutLine.text "DISKS"]
          ++ (ds.map fun d =>
               [OutLine.diskLine d.mountPoint d.total d.used,
                .usagePct d.usedPercent]).flatten
          ++ [OutLine.text "sep"]
      | none => [])
  ++ [OutLine.text "NETWORK", .netLine v.network.bytesSent v.network.bytesRecv,
      .text "sep"]
  ++ (match v.hostInfo with
      | some h => [OutLine.hostLine h.hostname,
                   .platformLine h.platform h.platformVersion,
                   .uptimeLine v.uptime, .text "sep"]
      | none => [])
  ++ (match v.loadAvg with
      | some a => [OutLine.loadLine a.load1 a.load5 a.load15]
      | none => [])
  ++ [OutLine.processesLine v.processes, .text "sep"]
  ++ (match v.temperature with
      | some ts =>
          if 0 < ts.length then
            [OutLine.text "TEMPERATURES"]
            ++ ts.map (fun t => OutLine.tempLine t.sensorKey t.temperature)
            ++ [OutLine.text "sep"]
          else []
      | none => [])
  ++ [OutLine.text "GO RUNTIME", .goroutinesLine v.goRoutines,
      .gomemLine v.goMemAlloc, .text "box-bottom"]

/-- Observable result of one `GET /vitals` request: what was written to the
HTTP response body and what was printed to the server's standard output. -/
structure PrintResult where
  responseBody : List Json
  stdoutLines : List OutLine

/-- `printVitals` (sse.go lines 421–493): one Assembler invocation, a
textual rendering to the server's stdout, and nothing written to `w`. -/
def printVitals (s : SSEWorld) : PrintResult × SSEWorld :=
  let ((_, v), s') := collectWithId s
  (⟨[], renderVitals v⟩, s')

/-! ## Auxiliary definitions used by the verification -/

/-- Declarative description of the retained interface records: one record
per counter entry whose name has a match in `ifaces`, unmatched entries are
skipped.  Proved equal to what the fold produces. -/
def netRecords (ifaces : List InterfaceStat) (entries : List IOCountersStat) :
    List NetworkInterface :=
  entries.filterMap fun entry =>
    (ifaces.find? (fun iface => iface.name == entry.name)).map
      (fun iface => mkNetworkInterface entry iface ifaces)

/-- Number of ticks a connection's select loop serves before the first
disconnect signal (every event before that signal is a tick). -/
def ticksBeforeDisconnect (events : List SSEEvent) : Nat :=
  (events.takeWhile (fun e => e == SSEEvent.tick)).length

/-- Length of a successful delivery list (0 for the no-streaming error). -/
def okLength : Except Unit (List Delivery) → Nat
  | .ok ds => ds.length
  | .error _ => 0

/-- The spec's claimed tie-breaking property of the top-process list: any
two output entries with equal CPU appear in the order in which their
processes were enumerated in the input (positions located by pid). -/
def tiesInEnumOrder (input : List ProcEntry) (output : List TopProcess) : Prop :=
  ∀ q, q < output.length → ∀ p, p < q →
    (output.getD p topProcessZero).cpu = (output.getD q topProcessZero).cpu →
    input.findIdx (fun e => e.pid == (output.getD p topProcessZero).pid) <
      input.findIdx (fun e => e.pid == (output.getD q topProcessZero).pid)

/-- A POSIX shell evaluating the two DMI fallback commands of
`collectHardwareInfo`: `cat file 2>/dev/null || echo 'Unknown'` yields the
file's content when the file is readable and the literal `Unknown` when it
is not; other commands fail.  (`none` in the file argument = the DMI file is
unavailable on the host.) -/
def dmiShell (sysVendorFile productFile : Option String) :
    String → Option String :=
  fun cmd =>
    if cmd = sysVendorCmd then some (sysVendorFile.getD "Unknown")
    else if cmd = productNameCmd then some (productFile.getD "Unknown")
    else none

/-- Environment in which every fallible probe fails and the shell cannot
run any command. -/
def envAllFail : ProbeEnv :=
  { cpuPercent := fun _ _ => .error ()
    virtualMemory := .error ()
    swapMemory := .error ()
    partitions := .error ()
    diskUsage := fun _ => .error ()
    diskCounters := .error ()
    netCounters := .error ()
    interfaces := .error ()
    hostInformation := .error ()
    uptime := .error ()
    loadAvg := .error ()
    processes := .error ()
    sensorsTemperatures := .error ()
    cpuInformation := .error ()
    cpuCounts := fun _ => .error ()
    shell := fun _ => none
    goos := "linux"
    numGoroutine := 0
    memStatsAlloc := 0
    now := 0 }

/-- A counter entry list with a single interface. -/
def entryEth : IOCountersStat := ⟨"eth0", 1, 2⟩

/-- Interface metadata matching `entryEth`. -/
def ifaceEth : InterfaceStat := ⟨"eth0", "aa:bb:cc", ["192.168.0.2"]⟩

/-- Environment whose network probe succeeds with one matched interface and
whose other probes fail. -/
def envNet : ProbeEnv :=
  { envAllFail with
    netCounters := .ok [entryEth]
    interfaces := .ok [ifaceEth] }

/-- Environment whose process probe succeeds with one CPU-consuming
process and whose other probes fail. -/
def envProcs : ProbeEnv :=
  { envAllFail with processes := .ok [⟨1, 1, 0, "a", ""⟩] }

/-- Process table exhibiting the instability of the exchange sort:
processes A and B tie at CPU 2 and are enumerated in this order, C follows
with CPU 3. -/
def cexProcs : List ProcEntry :=
  [⟨1, 2, 0, "A", ""⟩, ⟨2, 2, 0, "B", ""⟩, ⟨3, 3, 0, "C", ""⟩]

/-- The single record the network block builds for `envNet`. -/
def recEth : NetworkInterface := ⟨"eth0", "192.168.0.2", "aa:bb:cc", 1, 2, true⟩

/-! # Proofs

## Network aggregation lemmas -/

theorem netStep_fst (ifaces : List InterfaceStat)
    (acc : IOCountersStat × List NetworkInterface) (entry : IOCountersStat) :
    (netStep ifaces acc entry).1 =
      { acc.1 with
        bytesSent := (acc.1.bytesSent + entry.bytesSent) % uint64Mod
        bytesRecv := (acc.1.bytesRecv + entry.bytesRecv) % uint64Mod } := by
  cases h : ifaces.find? (fun iface => iface.name == entry.name) <;>
    simp [netStep, h]

theorem netFold_snd (ifaces : List InterfaceStat) (es : List IOCountersStat) :
    ∀ acc, (es.foldl (netStep ifaces) acc).2 = acc.2 ++ netRecords ifaces es := by
  induction es with
  | nil => intro acc; simp [netRecords]
  | cons e es ih =>
      intro acc
      rw [List.foldl_cons, ih]
      cases h : ifaces.find? (fun iface => iface.name == e.name) <;>
        simp [netStep, netRecords, h]

theorem collectNetwork_snd (entries : List IOCountersStat)
    (ifaces : List InterfaceStat) :
    (collectNetwork entries ifaces).2 = netRecords ifaces entries := by
  rw [collectNetwork, netFold_snd]; rfl

theorem uint64Mod_pos : 0 < uint64Mod := by norm_num [uint64Mod]

theorem netFold_fst (ifaces : List InterfaceStat) (es : List IOCountersStat) :
    ∀ acc : IOCountersStat × List NetworkInterface,
      acc.1.bytesSent < uint64Mod → acc.1.bytesRecv < uint64Mod →
      (es.foldl (netStep ifaces) acc).1.bytesSent =
          (acc.1.bytesSent + (es.map IOCountersStat.bytesSent).sum) % uint64Mod
        ∧ (es.foldl (netStep ifaces) acc).1.bytesRecv =
          (acc.1.bytesRecv + (es.map IOCountersStat.bytesRecv).sum) % uint64Mod := by
  induction es with
  | nil =>
      intro acc hs hr
      simp [Nat.mod_eq_of_lt hs, Nat.mod_eq_of_lt hr]
  | cons e es ih =>
      intro acc hs hr
      rw [List.foldl_cons]
      have h := ih (netStep ifaces acc e)
        (by rw [netStep_fst]; exact Nat.mod_lt _ uint64Mod_pos)
        (by rw [netStep_fst]; exact Nat.mod_lt _ uint64Mod_pos)
      rw [netStep_fst] at h
      simpa [Nat.mod_add_mod, Nat.add_assoc] using h

/-- With every entry matched, the retained records carry exactly the
entries' counters, in order. -/
theorem netRecords_counters_of_matched (ifaces : List InterfaceStat)
    (es : List IOCountersStat)
    (h : ∀ e ∈ es, (ifaces.find? (fun i => i.name == e.name)).isSome) :
    (netRecords ifaces es).map NetworkInterface.bytesSent =
        es.map IOCountersStat.bytesSent
      ∧ (netRecords ifaces es).map NetworkInterface.bytesRecv =
        es.map IOCountersStat.bytesRecv := by
  induction es with
  | nil => simp [netRecords]
  | cons e es ih =>
      have he := h e (List.mem_cons_self e es)
      rcases Option.isSome_iff_exists.mp he with ⟨iface, hf⟩
      have ihr := ih (fun x hx => h x (List.mem_cons_of_mem e hx))
      simp only [netRecords] at ihr ⊢
      rw [List.filterMap_cons, hf]
      simp only [Option.map_some', List.map_cons]
      exact ⟨by rw [ihr.1]; rfl, by rw [ihr.2]; rfl⟩

theorem collectNetwork_total (entries : List IOCountersStat)
    (ifaces : List InterfaceStat)
    (h : ∀ e ∈ entries, (ifaces.find? (fun i => i.name == e.name)).isSome) :
    (collectNetwork entries ifaces).1.bytesSent =
        (((collectNetwork entries ifaces).2.map NetworkInterface.bytesSent).sum)
          % uint64Mod
      ∧ (collectNetwork entries ifaces).1.bytesRecv =
        (((collectNetwork entries ifaces).2.map NetworkInterface.bytesRecv).sum)
          % uint64Mod := by
  have hf := netFold_fst ifaces entries (⟨"", 0, 0⟩, [])
    (by norm_num [uint64Mod]) (by norm_num [uint64Mod])
  have hr := netRecords_counters_of_matched ifaces entries h
  have h1 : (collectNetwork entries ifaces).1.bytesSent =
      ((entries.map IOCountersStat.bytesSent).sum) % uint64Mod := by
    rw [collectNetwork, hf.1]; simp
  have h1' : (collectNetwork entries ifaces).2.map NetworkInterface.bytesSent =
      entries.map IOCountersStat.bytesSent := by
    rw [collectNetwork_snd, hr.1]
  have h2 : (collectNetwork entries ifaces).1.bytesRecv =
      ((entries.map IOCountersStat.bytesRecv).sum) % uint64Mod := by
    rw [collectNetwork, hf.2]; simp
  have h2' : (collectNetwork entries ifaces).2.map NetworkInterface.bytesRecv =
      entries.map IOCountersStat.bytesRecv := by
    rw [collectNetwork_snd, hr.2]
  exact ⟨by rw [h1, h1'], by rw [h2, h2']⟩

/-! ## Claim C6: interface retention in `networkIfaces` -/

/-- C6 counterexample: the claim "for every interface present in the
per-interface I/O counter list, one record is retained in networkIfaces
(unmatched interfaces retained with empty IP/MAC rather than dropped)" is
false at the concrete input of one counter entry (`eth0`) and an empty
interface-metadata list: no record at all is retained for `eth0`. -/
theorem claimC6_counterexample :
    ¬ (∀ entry ∈ [entryEth],
        ∃ rec ∈ (collectNetwork [entryEth] []).2, rec.name = entry.name) := by
  decide

/-- C6 (amended): each counter entry whose name has a match in the
interface-metadata list yields one retained record carrying that entry's
counters and the first matching interface's MAC address; every retained
record's name has a matching metadata entry — so counter entries without a
match are dropped from `networkIfaces` (they still enter the totals). -/
theorem claimC6_matched_retained_unmatched_dropped
    (entries : List IOCountersStat) (ifaces : List InterfaceStat) :
    (∀ entry ∈ entries, ∀ iface,
        ifaces.find? (fun i => i.name == entry.name) = some iface →
        ∃ rec ∈ (collectNetwork entries ifaces).2,
          rec.name = entry.name ∧ rec.macAddr = iface.hardwareAddr ∧
          rec.bytesSent = entry.bytesSent ∧ rec.bytesRecv = entry.bytesRecv)
    ∧ (∀ rec ∈ (collectNetwork entries ifaces).2,
        ∃ iface ∈ ifaces, iface.name = rec.name) := by
  constructor
  · intro entry hmem iface hf
    refine ⟨mkNetworkInterface entry iface ifaces, ?_, rfl, rfl, rfl, rfl⟩
    rw [collectNetwork_snd]
    exact List.mem_filterMap.mpr ⟨entry, hmem, by rw [hf]; rfl⟩
  · intro rec hrec
    rw [collectNetwork_snd] at hrec
    rcases List.mem_filterMap.mp hrec with ⟨entry, _hentry, hmap⟩
    rcases Option.map_eq_some'.mp hmap with ⟨iface, hfind, hmk⟩
    refine ⟨iface, List.mem_of_find?_eq_some hfind, ?_⟩
    have hbeq := List.find?_some hfind
    rw [← hmk]
    exact eq_of_beq hbeq

/-- Witness for C6: at one matched entry the theorem yields a retained
record, so the record list is non-empty. -/
theorem claimC6_witness : (collectNetwork [entryEth] [ifaceEth]).2 ≠ [] := by
  obtain ⟨rec, hm, _⟩ :=
    (claimC6_matched_retained_unmatched_dropped [entryEth] [ifaceEth]).1
      entryEth (by simp) ifaceEth (by decide)
  exact List.ne_nil_of_mem hm

/-! ## Claim C7: aggregate counters equal the sum over retained records -/

/-- C7: in every snapshot whose interface-name matching succeeds for all
counter entries, the aggregate `network` counters equal the sums of the
per-interface counters retained in `networkIfaces` (as Go `uint64` sums). -/
theorem claimC7_network_total_eq_sum (env : ProbeEnv)
    (entries : List IOCountersStat) (hok : env.netCounters = .ok entries)
    (hmatch : ∀ e ∈ entries,
      ((ifacesOf env).find? (fun i => i.name == e.name)).isSome) :
    (collectSystemVitals env).network.bytesSent =
        ((((collectSystemVitals env).networkIfaces.getD []).map
          NetworkInterface.bytesSent).sum) % uint64Mod
      ∧ (collectSystemVitals env).network.bytesRecv =
        ((((collectSystemVitals env).networkIfaces.getD []).map
          NetworkInterface.bytesRecv).sum) % uint64Mod := by
  have hred1 : (collectSystemVitals env).network =
      (collectNetwork entries (ifacesOf env)).1 := by
    simp [collectSystemVitals, collectSystemVitalsT, hok]
  have hred2 : (collectSystemVitals env).networkIfaces =
      some (collectNetwork entries (ifacesOf env)).2 := by
    simp [collectSystemVitals, collectSystemVitalsT, hok]
  rw [hred1, hred2, Option.getD_some]
  exact collectNetwork_total entries (ifacesOf env) hmatch

/-- Witness for C7 at a concrete environment with one matched interface. -/
theorem claimC7_witness :
    (collectSystemVitals envNet).network.bytesSent =
      ((((collectSystemVitals envNet).networkIfaces.getD []).map
        NetworkInterface.bytesSent).sum) % uint64Mod :=
  (claimC7_network_total_eq_sum envNet [entryEth] rfl (by decide)).1

/-! ## Claim C10: the up/down flag is constantly true -/

/-- C10: every interface record of every assembled snapshot has
`isUp = true`, regardless of the interface state (the source hard-codes
`IsUp: true`). -/
theorem claimC10_isUp_always_true (env : ProbeEnv) (l : List NetworkInterface)
    (h : (collectSystemVitals env).networkIfaces = some l) :
    ∀ rec ∈ l, rec.isUp = true := by
  cases hok : env.netCounters with
  | error e => simp [collectSystemVitals, collectSystemVitalsT, hok] at h
  | ok entries =>
      simp only [collectSystemVitals, collectSystemVitalsT, hok,
        Option.some_inj] at h
      rw [← h, collectNetwork_snd]
      intro rec hrec
      rcases List.mem_filterMap.mp hrec with ⟨entry, _, hmap⟩
      rcases Option.map_eq_some'.mp hmap with ⟨iface, _, hmk⟩
      rw [← hmk]
      rfl

/-- Witness for C10 at a concrete environment with one interface record. -/
theorem claimC10_witness : recEth.isUp = true :=
  claimC10_isUp_always_true envNet [recEth] (by decide) recEth (by simp)

/-! ## Claim C9: blocking CPU-sampling time per assembly -/

/-- C9 counterexample: the claim "one fixed 1-second blocking window
covering both aggregate and per-core values, total blocking CPU-sampling
time exactly 1 second" is false: at any concrete environment the assembly
performs two 1-second windows, 2 seconds in total. -/
theorem claimC9_counterexample :
    cpuSamplingSeconds envAllFail = 2 ∧ cpuSamplingSeconds envAllFail ≠ 1 :=
  ⟨rfl, by decide⟩

/-- C9 (amended): every snapshot assembly performs exactly two 1-second
blocking CPU-sampling windows — `cpu.Percent(time.Second, false)` then
`cpu.Percent(time.Second, true)` — so the total blocking CPU-sampling time
per Assembler invocation is 2 seconds. -/
theorem claimC9_two_one_second_windows (env : ProbeEnv) :
    (collectSystemVitalsT env).2 = [(1, false), (1, true)]
      ∧ cpuSamplingSeconds env = 2 :=
  ⟨rfl, rfl⟩

/-! ## Claim C1: the one-shot `GET /vitals` endpoint -/

/-- C1 counterexample: the claim that the `/vitals` handler returns the
snapshot fully serialized in the HTTP response is false at a concrete
world: the response body is empty (the rendering goes to the server's
standard output instead). -/
theorem claimC1_counterexample :
    (printVitals ⟨envAllFail, 0⟩).1.responseBody = [] ∧
    (printVitals ⟨envAllFail, 0⟩).1.responseBody ≠
      [marshalVitals (collectSystemVitals envAllFail)] :=
  ⟨rfl, by simp [printVitals, collectWithId]⟩

/-- C1 (amended): every `/vitals` request triggers exactly one Snapshot
Assembler invocation, writes nothing to the HTTP response body, and prints
a (partial) textual rendering to the server's standard output. -/
theorem claimC1_one_invocation_stdout_only (s : SSEWorld) :
    (printVitals s).2.nextId = s.nextId + 1 ∧
    (printVitals s).1.responseBody = [] ∧
    (printVitals s).1.stdoutLines ≠ [] := by
  refine ⟨rfl, rfl, ?_⟩
  simp [printVitals, collectWithId, renderVitals]

/-! ## Claim C2: per-tick snapshot sharing across subscribers -/

/-- C2 counterexample: at a tick boundary with two connected subscribers,
the records the two subscribers receive do not come from a single Assembler
invocation — their invocation identities differ. -/
theorem claimC2_counterexample :
    (twoSubscriberTick ⟨envAllFail, 0⟩).1.snapId ≠
      (twoSubscriberTick ⟨envAllFail, 0⟩).2.1.snapId := by
  decide

/-- C2 (amended): there is no shared broadcaster: at each tick boundary
every connected subscriber's own loop performs its own Assembler
invocation (two subscribers ⇒ two invocations, with distinct identities),
and each subscriber receives only its own invocation's snapshot. -/
theorem claimC2_independent_invocations (s : SSEWorld) :
    (twoSubscriberTick s).1.snapId = s.nextId ∧
    (twoSubscriberTick s).2.1.snapId = s.nextId + 1 ∧
    (twoSubscriberTick s).2.2.nextId = s.nextId + 2 ∧
    (twoSubscriberTick s).1.snapId ≠ (twoSubscriberTick s).2.1.snapId := by
  refine ⟨rfl, rfl, rfl, ?_⟩
  show s.nextId ≠ s.nextId + 1
  omega

/-! ## Claim C4: assembly tolerates any combination of probe failures -/

/-- C4: for every combination of individual probe failures, snapshot
assembly completes (the embedding is a total function) and leaves each
failed probe's field at its zero/empty default while every other probe's
field is populated from that probe's result; the infallible parts
(hardware, update count, runtime stats, timestamp) are always populated. -/
theorem claimC4_partial_failure_isolation (env : ProbeEnv) :
    ((env.cpuPercent 1 false = .error () → (collectSystemVitals env).cpuUsage = 0)
      ∧ (∀ l, env.cpuPercent 1 false = .ok l → l ≠ [] →
          (collectSystemVitals env).cpuUsage = l.headD 0))
    ∧ ((env.cpuPercent 1 true = .error () →
          (collectSystemVitals env).cpuPerCore = none)
      ∧ (∀ l, env.cpuPercent 1 true = .ok l →
          (collectSystemVitals env).cpuPerCore = some l))
    ∧ ((env.virtualMemory = .error () → (collectSystemVitals env).memory = none)
      ∧ (∀ m, env.virtualMemory = .ok m →
          (collectSystemVitals env).memory = some m))
    ∧ ((env.swapMemory = .error () → (collectSystemVitals env).swap = none)
      ∧ (∀ x, env.swapMemory = .ok x → (collectSystemVitals env).swap = some x))
    ∧ ((env.partitions = .error () → (collectSystemVitals env).disks = none)
      ∧ (∀ ps, env.partitions = .ok ps →
          ∃ dl, (collectSystemVitals env).disks = some dl))
    ∧ ((env.diskCounters = .error () →
          (collectSystemVitals env).diskIOCounters = none)
      ∧ (∀ m, env.diskCounters = .ok m →
          (collectSystemVitals env).diskIOCounters = some m))
    ∧ ((env.netCounters = .error () →
          (collectSystemVitals env).network = ⟨"", 0, 0⟩
            ∧ (collectSystemVitals env).networkIfaces = none)
      ∧ (∀ es, env.netCounters = .ok es →
          ∃ rl, (collectSystemVitals env).networkIfaces = some rl))
    ∧ ((env.hostInformation = .error () →
          (collectSystemVitals env).hostInfo = none)
      ∧ (∀ hi, env.hostInformation = .ok hi →
          (collectSystemVitals env).hostInfo = some hi))
    ∧ ((env.uptime = .error () → (collectSystemVitals env).uptime = 0)
      ∧ (∀ u, env.uptime = .ok u → (collectSystemVitals env).uptime = u))
    ∧ ((env.loadAvg = .error () → (collectSystemVitals env).loadAvg = none)
      ∧ (∀ a, env.loadAvg = .ok a → (collectSystemVitals env).loadAvg = some a))
    ∧ ((env.processes = .error () → (collectSystemVitals env).processes = 0
          ∧ (collectSystemVitals env).topProcesses = none)
      ∧ (∀ ps, env.processes = .ok ps →
          (collectSystemVitals env).processes = ps.length
            ∧ ∃ tl, (collectSystemVitals env).topProcesses = some tl))
    ∧ ((env.sensorsTemperatures = .error () →
          (collectSystemVitals env).temperature = none)
      ∧ (∀ t, env.sensorsTemperatures = .ok t →
          (collectSystemVitals env).temperature = some t))
    ∧ ((collectSystemVitals env).hardware = collectHardwareInfo env
      ∧ (collectSystemVitals env).systemUpdates = checkForUpdates env
      ∧ (collectSystemVitals env).goRoutines = env.numGoroutine
      ∧ (collectSystemVitals env).goMemAlloc = env.memStatsAlloc
      ∧ (collectSystemVitals env).lastUpdated = env.now) := by
  refine ⟨⟨?_, ?_⟩, ⟨?_, ?_⟩, ⟨?_, ?_⟩, ⟨?_, ?_⟩, ⟨?_, ?_⟩, ⟨?_, ?_⟩,
    ⟨?_, ?_⟩, ⟨?_, ?_⟩, ⟨?_, ?_⟩, ⟨?_, ?_⟩, ⟨?_, ?_⟩, ⟨?_, ?_⟩,
    rfl, rfl, rfl, rfl, rfl⟩ <;>
  · intros
    simp_all [collectSystemVitals, collectSystemVitalsT]

/-- Witness for C4: with every probe but the process table failing, the
failed memory probe's field is the zero default and the successful process
probe's field is populated. -/
theorem claimC4_witness :
    (collectSystemVitals envProcs).memory = none ∧
    (collectSystemVitals envProcs).processes = 1 := by
  obtain ⟨_, _, ⟨hmem, _⟩, _, _, _, _, _, _, _, ⟨_, hps⟩, _, _⟩ :=
    claimC4_partial_failure_isolation envProcs
  exact ⟨hmem rfl, ((hps _ rfl).1).trans rfl⟩

/-! ## Claim C5: stable serialized shape -/

/-- C5 counterexample: the claim that optional sub-records are serialized
"present with zero-valued fields" is false at a concrete snapshot whose
swap probe failed: the `swap` key is present but carries JSON `null`, not a
zero-valued sub-object. -/
theorem claimC5_counterexample :
    jsonLookup "swap" (marshalVitals (collectSystemVitals envAllFail))
        = some Json.null
      ∧ Json.null ≠ marshalSwap ⟨0, 0, 0⟩ :=
  ⟨rfl, fun h => Json.noConfusion h⟩

/-- C5 (amended): the serialized snapshot always has the same top-level key
set (no field is ever dropped); an absent pointer-typed sub-record (swap)
is serialized as the key mapped to JSON `null`; an unavailable DMI vendor
file makes the hardware vendor field the literal `"Unknown"`. -/
theorem claimC5_stable_key_set :
    (∀ v : SystemVitals, jsonKeys (marshalVitals v) = vitalsKeys)
    ∧ (∀ v : SystemVitals, v.swap = none →
        jsonLookup "swap" (marshalVitals v) = some Json.null)
    ∧ (∀ env : ProbeEnv, ∀ fileModel : Option String,
        env.shell = dmiShell none fileModel →
        (collectHardwareInfo env).systemVendor = "Unknown") := by
  refine ⟨fun v => rfl, fun v h => ?_, fun env fm h => ?_⟩
  · simp [marshalVitals, jsonLookup, h, optJson]
  · rw [show (collectHardwareInfo env).systemVendor
        = getCommandOutput env.shell sysVendorCmd from rfl, h]
    rfl

/-- Witness for C5 at concrete inputs. -/
theorem claimC5_witness :
    jsonKeys (marshalVitals (collectSystemVitals envAllFail)) = vitalsKeys
    ∧ jsonLookup "swap" (marshalVitals (collectSystemVitals envAllFail))
        = some Json.null
    ∧ (collectHardwareInfo
        { envAllFail with shell := dmiShell none (some "X") }).systemVendor
        = "Unknown" := by
  obtain ⟨h1, h2, h3⟩ := claimC5_stable_key_set
  exact ⟨h1 _, h2 _ rfl, h3 _ (some "X") rfl⟩

/-! ## Claim C8: per-subscriber delivery schedule -/

theorem runSSELoop_length (events : List SSEEvent) :
    ∀ s, (runSSELoop events s).1.length = ticksBeforeDisconnect events := by
  induction events with
  | nil => intro s; simp [runSSELoop, ticksBeforeDisconnect]
  | cons e rest ih =>
      intro s
      cases e with
      | disconnect => simp [runSSELoop, ticksBeforeDisconnect]
      | tick =>
          simp only [runSSELoop, ticksBeforeDisconnect, List.takeWhile_cons]
          simp [ih, ticksBeforeDisconnect]

theorem runSSELoop_snapIds (events : List SSEEvent) :
    ∀ (s : SSEWorld) (k : Nat), k < (runSSELoop events s).1.length →
      ((runSSELoop events s).1.getD k ⟨0, Json.null⟩).snapId = s.nextId + k := by
  induction events with
  | nil => intro s k hk; simp [runSSELoop] at hk
  | cons e rest ih =>
      intro s k hk
      cases e with
      | disconnect => simp [runSSELoop] at hk
      | tick =>
          cases k with
          | zero => simp [runSSELoop, sendVitalsData, collectWithId]
          | succ k =>
              simp only [runSSELoop, List.getD_cons_succ]
              have hk' : k < (runSSELoop rest (sendVitalsData s).2).1.length := by
                simp only [runSSELoop, List.length_cons] at hk
                omega
              rw [ih (sendVitalsData s).2 k hk']
              simp [sendVitalsData, collectWithId]
              omega

theorem runSSELoop_disconnect_cut (pre post : List SSEEvent) :
    ∀ s, runSSELoop (pre ++ SSEEvent.disconnect :: post) s
      = runSSELoop (pre ++ [SSEEvent.disconnect]) s := by
  induction pre with
  | nil => intro s; simp [runSSELoop]
  | cons e pre ih =>
      intro s
      cases e with
      | disconnect => simp [runSSELoop]
      | tick => simp only [List.cons_append, runSSELoop, List.append_eq, ih]

/-- C8: on a stream-capable transport, every subscriber connection delivers
one record immediately on connect (snapshot collected at registration,
before any tick), then exactly one record per tick until the first
disconnect signal, each tick's record coming from the next fresh Assembler
invocation; the ticker period is the 5-second default; and events after the
disconnect signal change nothing — no further deliveries are attempted. -/
theorem claimC8_delivery_schedule (flusherOk : Bool) (events : List SSEEvent)
    (s : SSEWorld) (h : flusherOk = true) :
    ∃ ds, (initiateSSE flusherOk events s).1 = .ok ds
      ∧ ds.length = 1 + ticksBeforeDisconnect events
      ∧ (∀ k, k < ds.length →
          (ds.getD k ⟨0, Json.null⟩).snapId = s.nextId + k)
      ∧ tickerIntervalSeconds = 5
      ∧ (∀ pre post, initiateSSE flusherOk (pre ++ SSEEvent.disconnect :: post) s
          = initiateSSE flusherOk (pre ++ [SSEEvent.disconnect]) s) := by
  subst h
  refine ⟨(sendVitalsData s).1 :: (runSSELoop events (sendVitalsData s).2).1,
    rfl, ?_, ?_, rfl, ?_⟩
  · rw [List.length_cons, runSSELoop_length]
    omega
  · intro k hk
    cases k with
    | zero => simp [sendVitalsData, collectWithId]
    | succ k =>
        rw [List.getD_cons_succ]
        rw [List.length_cons] at hk
        rw [runSSELoop_snapIds events (sendVitalsData s).2 k (by omega)]
        simp [sendVitalsData, collectWithId]
        omega
  · intro pre post
    simp only [initiateSSE, if_true, runSSELoop_disconnect_cut]

/-- Witness for C8: a connection observing tick, disconnect, tick delivers
exactly two records (the immediate one and the first tick's). -/
theorem claimC8_witness :
    okLength (initiateSSE true
      [SSEEvent.tick, SSEEvent.disconnect, SSEEvent.tick] ⟨envAllFail, 0⟩).1
      = 2 := by
  obtain ⟨ds, h1, h2, _, _, _⟩ := claimC8_delivery_schedule true
    [SSEEvent.tick, SSEEvent.disconnect, SSEEvent.tick] ⟨envAllFail, 0⟩ rfl
  rw [h1]
  simp only [okLength]
  rw [h2]
  decide

/-! ## Claim C3: the top-processes list

The exchange sort establishes a descending order but is not stable; the
lemmas below prove the loop invariants of the nested loops of sse.go
lines 304–310. -/

theorem getD_set_eq (l : List TopProcess) (i : Nat) (hi : i < l.length)
    (a d : TopProcess) : (l.set i a).getD i d = a := by
  rw [List.getD_eq_getElem?_getD, List.getElem?_set_eq_of_lt a hi]
  rfl

theorem getD_set_ne (l : List TopProcess) {i j : Nat} (h : i ≠ j)
    (a d : TopProcess) : (l.set i a).getD j d = l.getD j d := by
  rw [List.getD_eq_getElem?_getD, List.getD_eq_getElem?_getD,
    List.getElem?_set_ne h]

theorem getD_mem (l : List TopProcess) (m : Nat) (d : TopProcess)
    (hm : m < l.length) : l.getD m d ∈ l := by
  rw [List.getD_eq_getElem?_getD, List.getElem?_eq_getElem hm,
    Option.getD_some]
  exact List.getElem_mem hm

/-- A comparison step leaves every position other than `i` and `j`
unchanged. -/
theorem exchStep_getD_other (l : List TopProcess) {i j k : Nat}
    (hki : k ≠ i) (hkj : k ≠ j) :
    (exchStep l i j).getD k topProcessZero = l.getD k topProcessZero := by
  unfold exchStep
  split
  · rw [getD_set_ne _ (fun h => hkj h.symm), getD_set_ne _ (fun h => hki h.symm)]
  · rfl

/-- The inner loop leaves every position below `j` other than `i`
unchanged. -/
theorem exchInner_getD_frozen (l : List TopProcess) (i j : Nat) :
    ∀ k, k < j → k ≠ i →
      (exchInner l i j).getD k topProcessZero = l.getD k topProcessZero := by
  rw [exchInner]
  split
  · intro k hk hki
    rw [exchInner_getD_frozen (exchStep l i j) i (j + 1) k (by omega) hki,
      exchStep_getD_other l hki (by omega)]
  · intro k _ _
    rfl
termination_by l.length - j
decreasing_by simp only [exchStep_length]; omega

/-- Inner-loop invariant: if position `i` already dominates positions
strictly between `i` and `j`, then after the inner loop position `i`
dominates every position after `i`. -/
theorem exchInner_getD_max (l : List TopProcess) (i j : Nat) (hij : i < j)
    (hi : i < l.length)
    (hinv : ∀ m, i < m → m < j →
      (l.getD m topProcessZero).cpu ≤ (l.getD i topProcessZero).cpu) :
    ∀ k, i < k → k < l.length →
      ((exchInner l i j).getD k topProcessZero).cpu ≤
        ((exchInner l i j).getD i topProcessZero).cpu := by
  rw [exchInner]
  split
  · next hjlen =>
      intro k hik hk
      refine exchInner_getD_max (exchStep l i j) i (j + 1) (by omega)
        (by simpa using hi) ?_ k hik (by simpa using hk)
      intro m him hmj
      unfold exchStep
      split
      · next hswap =>
          have hii : ((l.set i (l.getD j topProcessZero)).set j
                (l.getD i topProcessZero)).getD i topProcessZero
              = l.getD j topProcessZero := by
            rw [getD_set_ne _ (show j ≠ i by omega), getD_set_eq l i hi]
          rw [hii]
          by_cases hmj' : m = j
          · subst hmj'
            rw [getD_set_eq _ m (by simpa using hjlen)]
            exact le_of_lt hswap
          · rw [getD_set_ne _ (show j ≠ m from fun h => hmj' h.symm),
              getD_set_ne _ (show i ≠ m by omega)]
            exact le_trans (hinv m him (by omega)) (le_of_lt hswap)
      · next hnoswap =>
          by_cases hmj' : m = j
          · subst hmj'
            exact not_lt.mp hnoswap
          · exact hinv m him (by omega)
  · next hjlen =>
      intro k hik hk
      exact hinv k hik (by omega)
termination_by l.length - j
decreasing_by simp only [exchStep_length]; omega

/-- A comparison step moves only values from positions `≥ i` into
positions `≥ i`. -/
theorem exchStep_getD_source (l : List TopProcess) (i j : Nat) (hij : i < j)
    (hj : j < l.length) :
    ∀ k, i ≤ k → k < l.length → ∃ m, i ≤ m ∧ m < l.length ∧
      (exchStep l i j).getD k topProcessZero = l.getD m topProcessZero := by
  intro k hik hk
  unfold exchStep
  split
  · by_cases hki : k = i
    · subst hki
      exact ⟨j, by omega, hj,
        by rw [getD_set_ne _ (show j ≠ k by omega), getD_set_eq l k hk]⟩
    · by_cases hkj : k = j
      · subst hkj
        exact ⟨i, le_refl i, by omega, by rw [getD_set_eq _ k (by simpa using hk)]⟩
      · exact ⟨k, hik, hk,
          by rw [getD_set_ne _ (fun h => hkj h.symm), getD_set_ne _ (fun h => hki h.symm)]⟩
  · exact ⟨k, hik, hk, rfl⟩

/-- The inner loop moves only values from positions `≥ i` into positions
`≥ i`. -/
theorem exchInner_getD_source (l : List TopProcess) (i j : Nat) (hij : i < j) :
    ∀ k, i ≤ k → k < l.length → ∃ m, i ≤ m ∧ m < l.length ∧
      (exchInner l i j).getD k topProcessZero = l.getD m topProcessZero := by
  rw [exchInner]
  split
  · next hjlen =>
      intro k hik hk
      obtain ⟨m1, him1, hm1, heq1⟩ := exchInner_getD_source (exchStep l i j) i
        (j + 1) (by omega) k hik (by simpa using hk)
      obtain ⟨m2, him2, hm2, heq2⟩ := exchStep_getD_source l i j hij hjlen m1
        him1 (by simpa using hm1)
      exact ⟨m2, him2, hm2, heq1.trans heq2⟩
  · intro k hik hk
    exact ⟨k, hik, hk, rfl⟩
termination_by l.length - j
decreasing_by simp only [exchStep_length]; omega

/-- Outer-loop invariant: if every position before `i` already dominates
everything after it, the outer loop from `i` produces a list that is
descending at every index pair. -/
theorem exchOuter_getD_sorted (l : List TopProcess) (i : Nat)
    (H : ∀ p q, p < q → q < l.length → p < i →
      (l.getD q topProcessZero).cpu ≤ (l.getD p topProcessZero).cpu) :
    ∀ p q, p < q → q < (exchOuter l i).length →
      ((exchOuter l i).getD q topProcessZero).cpu ≤
        ((exchOuter l i).getD p topProcessZero).cpu := by
  rw [exchOuter]
  split
  · next hlen =>
      refine exchOuter_getD_sorted (exchInner l i (i + 1)) (i + 1) ?_
      intro p q hpq hq hpi1
      have hq' : q < l.length := by
        rw [exchInner_length] at hq
        exact hq
      by_cases hpi : p < i
      · have hfp : (exchInner l i (i + 1)).getD p topProcessZero
            = l.getD p topProcessZero :=
          exchInner_getD_frozen l i (i + 1) p (by omega) (by omega)
        by_cases hqi : q < i
        · have hfq : (exchInner l i (i + 1)).getD q topProcessZero
              = l.getD q topProcessZero :=
            exchInner_getD_frozen l i (i + 1) q (by omega) (by omega)
          rw [hfp, hfq]
          exact H p q hpq hq' hpi
        · obtain ⟨m, him, hm, heq⟩ := exchInner_getD_source l i (i + 1)
            (by omega) q (by omega) hq'
          rw [hfp, heq]
          exact H p m (by omega) hm hpi
      · have hp_eq : p = i := by omega
        subst hp_eq
        exact exchInner_getD_max l p (p + 1) (by omega) (by omega)
          (fun m him hmi => absurd him (by omega)) q (by omega) hq'
  · next hlen =>
      intro p q hpq hq
      by_cases hpi : p < i
      · exact H p q hpq hq hpi
      · exact absurd hq (by omega)
termination_by l.length - i
decreasing_by simp only [exchInner_length]; omega

/-- Every position of the outer loop's result holds a value of the input
list. -/
theorem exchOuter_getD_source (l : List TopProcess) (i : Nat) :
    ∀ k, k < (exchOuter l i).length → ∃ m, m < l.length ∧
      (exchOuter l i).getD k topProcessZero = l.getD m topProcessZero := by
  rw [exchOuter]
  split
  · next hlen =>
      intro k hk
      obtain ⟨m1, hm1, heq1⟩ := exchOuter_getD_source (exchInner l i (i + 1))
        (i + 1) k hk
      rw [exchInner_length] at hm1
      by_cases hcase : i ≤ m1
      · obtain ⟨m2, _, hm2, heq2⟩ := exchInner_getD_source l i (i + 1)
          (by omega) m1 hcase hm1
        exact ⟨m2, hm2, heq1.trans heq2⟩
      · have hfroz : (exchInner l i (i + 1)).getD m1 topProcessZero
            = l.getD m1 topProcessZero :=
          exchInner_getD_frozen l i (i + 1) m1 (by omega) (by omega)
        exact ⟨m1, hm1, heq1.trans hfroz⟩
  · intro k hk
    exact ⟨k, hk, rfl⟩
termination_by l.length - i
decreasing_by simp only [exchInner_length]; omega

/-- The sorted list's members all come from the input. -/
theorem sortTopProcesses_mem (l : List TopProcess) :
    ∀ x ∈ sortTopProcesses l, x ∈ l := by
  intro x hx
  rw [sortTopProcesses] at hx
  obtain ⟨k, hk, hxk⟩ := List.mem_iff_getElem.mp hx
  have hget : (exchOuter l 0).getD k topProcessZero = x := by
    rw [List.getD_eq_getElem?_getD, List.getElem?_eq_getElem hk,
      Option.getD_some]
    exact hxk
  obtain ⟨m, hm, heq⟩ := exchOuter_getD_source l 0 k hk
  rw [hget] at heq
  rw [heq]
  exact getD_mem l m topProcessZero hm

/-- C3 (amended): in every assembled snapshot the `topProcesses` list has
length at most 5, contains only processes with strictly positive CPU
usage, and is descending in CPU at every index pair; the tie order,
however, is not the enumeration order (see the counterexample). -/
theorem claimC3_top_processes (env : ProbeEnv) (l : List TopProcess)
    (h : (collectSystemVitals env).topProcesses = some l) :
    l.length ≤ 5
    ∧ (∀ x ∈ l, 0 < x.cpu)
    ∧ (∀ p q, p < q → q < l.length →
        (l.getD q topProcessZero).cpu ≤ (l.getD p topProcessZero).cpu) := by
  cases hok : env.processes with
  | error e => simp [collectSystemVitals, collectSystemVitalsT, hok] at h
  | ok ps =>
      simp only [collectSystemVitals, collectSystemVitalsT, hok,
        Option.some_inj] at h
      subst h
      simp only [topProcessesOf, sortTopProcesses]
      have hsorted := exchOuter_getD_sorted
        (ps.filterMap fun p =>
          if 0 < p.cpu then some ⟨p.pid, p.name, p.cpu, p.mem, p.cmdline⟩
          else none) 0
        (fun p q _ _ hp0 => absurd hp0 (Nat.not_lt_zero p))
      have hmem := sortTopProcesses_mem
        (ps.filterMap fun p =>
          if 0 < p.cpu then some ⟨p.pid, p.name, p.cpu, p.mem, p.cmdline⟩
          else none)
      have hpos : ∀ x ∈ (ps.filterMap fun p =>
          if 0 < p.cpu
          then some (⟨p.pid, p.name, p.cpu, p.mem, p.cmdline⟩ : TopProcess)
          else none), 0 < x.cpu := by
        intro x hx
        rcases List.mem_filterMap.mp hx with ⟨p, _, hp⟩
        by_cases h0 : 0 < p.cpu
        · rw [if_pos h0] at hp
          exact (Option.some.inj hp) ▸ h0
        · rw [if_neg h0] at hp
          exact absurd hp (by simp)
      unfold sortTopProcesses at hmem
      set srt := exchOuter
        (ps.filterMap fun p =>
          if 0 < p.cpu then some ⟨p.pid, p.name, p.cpu, p.mem, p.cmdline⟩
          else none) 0 with hsrt
      by_cases h5 : srt.length > 5
      · rw [if_pos h5]
        refine ⟨by simp, ?_, ?_⟩
        · intro x hx
          exact hpos x (hmem x (List.take_subset 5 srt hx))
        · intro p q hpq hq
          have hq5 : q < (srt.take 5).length := hq
          have hqlen : q < srt.length := by
            simp only [List.length_take] at hq5
            omega
          have hplen : p < srt.length := by omega
          have hp5 : p < (srt.take 5).length := by omega
          have e1 : (srt.take 5).getD q topProcessZero
              = srt.getD q topProcessZero := by
            rw [List.getD_eq_getElem?_getD, List.getElem?_eq_getElem hq5,
              List.getD_eq_getElem?_getD, List.getElem?_eq_getElem hqlen,
              Option.getD_some, Option.getD_some]
            exact List.getElem_take srt
          have e2 : (srt.take 5).getD p topProcessZero
              = srt.getD p topProcessZero := by
            rw [List.getD_eq_getElem?_getD, List.getElem?_eq_getElem hp5,
              List.getD_eq_getElem?_getD, List.getElem?_eq_getElem hplen,
              Option.getD_some, Option.getD_some]
            exact List.getElem_take srt
          rw [e1, e2]
          exact hsorted p q hpq hqlen
      · rw [if_neg h5]
        exact ⟨by omega, fun x hx => hpos x (hmem x hx),
          fun p q hpq hq => hsorted p q hpq hq⟩

/-- Evaluation of the pipeline at the three-process table `cexProcs`. -/
theorem topProcessesOf_cexProcs :
    topProcessesOf cexProcs =
      [⟨3, "C", 3, 0, ""⟩, ⟨2, "B", 2, 0, ""⟩, ⟨1, "A", 2, 0, ""⟩] := by
  simp +decide [topProcessesOf, sortTopProcesses, exchOuter, exchInner,
    exchStep, cexProcs, topProcessZero]

/-- C3 counterexample: the claimed stable tie-breaking (ties in original
enumeration order) is false: at `cexProcs` the processes A and B tie at
CPU 2 with A enumerated first, yet the produced list places B before A. -/
theorem claimC3_counterexample :
    ¬ tiesInEnumOrder cexProcs (topProcessesOf cexProcs) := by
  rw [topProcessesOf_cexProcs]
  unfold tiesInEnumOrder
  decide

/-- Witness for C3 at a concrete environment with one process. -/
theorem claimC3_witness :
    ([(⟨1, "a", 1, 0, ""⟩ : TopProcess)]).length ≤ 5 := by
  have hsnap : (collectSystemVitals envProcs).topProcesses
      = some [(⟨1, "a", 1, 0, ""⟩ : TopProcess)] := by
    simp +decide [collectSystemVitals, collectSystemVitalsT, envProcs,
      envAllFail, topProcessesOf, sortTopProcesses, exchOuter]
  exact (claimC3_top_processes envProcs [⟨1, "a", 1, 0, ""⟩] hsnap).1

/-- Witness for the amended C1 statement at a concrete world. -/
theorem claimC1_witness :
    (printVitals ⟨envAllFail, 7⟩).2.nextId = 8 :=
  (claimC1_one_invocation_stdout_only ⟨envAllFail, 7⟩).1

/-- Witness for the amended C2 statement at a concrete world. -/
theorem claimC2_witness :
    (twoSubscriberTick ⟨envAllFail, 5⟩).1.snapId = 5 :=
  (claimC2_independent_invocations ⟨envAllFail, 5⟩).1

end HomeserverVitals
